import Mathlib

/-!
Shallow embedding of `src/gadalka/main.py` (a Telegram horoscope bot) and
proofs about its core logic: the SQLite-backed preference store
(`DatabaseManager`), the on-demand horoscope handler
(`HoroscopeBot.generate_horoscope`), the daily broadcast job
(`HoroscopeBot.daily_horoscope_job`) and the callback dispatch set up in
`HoroscopeBot.run`.

Modelling conventions:
* SQLite tables become Lean lists of row structures; `CURRENT_TIMESTAMP`
  becomes an explicit `now : Nat` parameter.
* Nullable columns are `Option _`; `NULL` is `none`.
* The external collaborators (GigaChat generation, Telegram delivery) and
  storage I/O failures are oracles passed as parameters: an `Except` value
  stands for "the call returned text or raised", a `Bool` stands for
  "the store write raised a `StorageError` or not".
* `sqlite3.connect` leaves foreign-key enforcement OFF by default and the
  program never issues `PRAGMA foreign_keys = ON`; the connection state
  carries this as the flag `fk_enforced`, set to `false` at connect time.
-/

namespace Gadalka

/-- The 12 fixed sign tokens, `ZODIAC_SIGNS` in `main.py` lines 35-39. -/
def ZODIAC_SIGNS : List String :=
  ["Овен", "Телец", "Близнецы", "Рак",
   "Лев", "Дева", "Весы", "Скорпион",
   "Стрелец", "Козерог", "Водолей", "Рыбы"]

/-- A row of the `users` table (`_init_db`, lines 50-58):
`user_id INTEGER PRIMARY KEY, zodiac_sign TEXT, notification_time TIME,
created_at TIMESTAMP DEFAULT CURRENT_TIMESTAMP,
updated_at TIMESTAMP DEFAULT CURRENT_TIMESTAMP`. -/
structure UserRow where
  user_id : Int
  zodiac_sign : Option String
  notification_time : Option Nat
  created_at : Nat
  updated_at : Nat
deriving DecidableEq, Repr

/-- A row of the `horoscopes` table (`_init_db`, lines 61-70):
`id INTEGER PRIMARY KEY AUTOINCREMENT, user_id INTEGER, zodiac_sign TEXT,
prediction TEXT, created_at TIMESTAMP DEFAULT CURRENT_TIMESTAMP,
FOREIGN KEY(user_id) REFERENCES users(user_id)`. -/
structure HoroscopeRow where
  id : Nat
  user_id : Int
  zodiac_sign : Option String
  prediction : Option String
  created_at : Nat
deriving DecidableEq, Repr

/-- The state of the SQLite database behind one `DatabaseManager`
connection.  `next_id` is the AUTOINCREMENT counter of `horoscopes`;
`fk_enforced` records whether `PRAGMA foreign_keys = ON` was ever issued
on this connection (the program never issues it). -/
structure DBState where
  users : List UserRow
  horoscopes : List HoroscopeRow
  next_id : Nat
  fk_enforced : Bool
deriving DecidableEq, Repr

/-- `DatabaseManager.__init__` + `_init_db`: `sqlite3.connect` yields a
connection with foreign-key enforcement off (SQLite default, no PRAGMA in
the code); `CREATE TABLE IF NOT EXISTS` on a fresh file yields empty
tables and an AUTOINCREMENT counter starting at 1. -/
def initDB : DBState :=
  { users := [], horoscopes := [], next_id := 1, fk_enforced := false }

/-- `DatabaseManager.update_user_zodiac` (lines 72-79):
`INSERT OR REPLACE INTO users (user_id, zodiac_sign, updated_at)
VALUES (?, ?, CURRENT_TIMESTAMP)`.
SQLite's `INSERT OR REPLACE` deletes any row conflicting on the
`user_id` primary key and inserts a fresh row; columns not named in the
INSERT take their declared defaults: `notification_time` has no default
(so `NULL`) and `created_at` defaults to `CURRENT_TIMESTAMP`. -/
def update_user_zodiac (db : DBState) (user_id : Int) (zodiac_sign : String)
    (now : Nat) : DBState :=
  { db with users :=
      db.users.filter (fun u => u.user_id != user_id) ++
        [{ user_id := user_id, zodiac_sign := some zodiac_sign,
           notification_time := none, created_at := now, updated_at := now }] }

/-- `DatabaseManager.save_horoscope` (lines 81-88):
`INSERT INTO horoscopes (user_id, zodiac_sign, prediction) VALUES (?, ?, ?)`.
`none` models the `sqlite3.IntegrityError` the insert would raise if the
declared foreign key were enforced and no parent `users` row existed
(`with self.conn` then rolls the transaction back, leaving the database
unchanged); with enforcement off the insert always succeeds. -/
def save_horoscope (db : DBState) (user_id : Int) (zodiac_sign : Option String)
    (prediction : String) (now : Nat) : Option DBState :=
  if db.fk_enforced && !(db.users.any (fun u => u.user_id == user_id)) then
    none
  else
    some { db with
      horoscopes := db.horoscopes ++
        [{ id := db.next_id, user_id := user_id, zodiac_sign := zodiac_sign,
           prediction := some prediction, created_at := now }],
      next_id := db.next_id + 1 }

/-- `DatabaseManager.get_users_for_notification` (lines 90-98):
`SELECT user_id, zodiac_sign FROM users WHERE notification_time IS NOT NULL`. -/
def get_users_for_notification (db : DBState) : List (Int × Option String) :=
  (db.users.filter (fun u => u.notification_time.isSome)).map
    (fun u => (u.user_id, u.zodiac_sign))

/-- The generic apology text the handler replies with on any caught
exception (`main.py` line 188). -/
def apology : String := "⚠️ Произошла ошибка. Попробуйте позже."

/-- Observable outcome of one callback-handler invocation: the database
after the handler returns, the texts sent with `reply_text`, the texts
set with `edit_message_text`, how many generation (GigaChat) calls were
made, and how many errors were logged.  The handler being a total Lean
function models the Python handler returning normally (no exception
escapes it). -/
structure HandlerOutcome where
  db : DBState
  replies : List String
  edits : List String
  gen_calls : Nat
  logged : Nat
deriving DecidableEq, Repr

/-- `HoroscopeBot.generate_horoscope` (lines 164-188).  The collaborator
results are oracles: `genResult` is what `_get_horoscope_prediction`
returns or raises for this call; `updOk` / `saveOk` are `false` when the
corresponding store write raises a `sqlite3` error (in which case
`with self.conn` rolls the write back).  Control flow mirrors the Python
`try` block: generate, then `update_user_zodiac`, then `save_horoscope`,
then reply with the prediction; any exception falls to the `except`
branch which logs and replies with the apology. -/
def generate_horoscope (genResult : Except String String) (updOk saveOk : Bool)
    (db : DBState) (user_id : Int) (zodiac_sign : String) (now : Nat) :
    HandlerOutcome :=
  let edits := ["🔍 Составляю гороскоп для " ++ zodiac_sign ++ "..."]
  match genResult with
  | Except.error _ =>
      { db := db, replies := [apology], edits := edits, gen_calls := 1, logged := 1 }
  | Except.ok prediction =>
      if !updOk then
        { db := db, replies := [apology], edits := edits, gen_calls := 1, logged := 1 }
      else
        let db1 := update_user_zodiac db user_id zodiac_sign now
        match if saveOk then save_horoscope db1 user_id (some zodiac_sign) prediction now
              else none with
        | none =>
            { db := db1, replies := [apology], edits := edits, gen_calls := 1, logged := 1 }
        | some db2 =>
            { db := db2,
              replies := ["♉ Ваш гороскоп на сегодня (" ++ zodiac_sign ++ "):\n\n" ++ prediction],
              edits := edits, gen_calls := 1, logged := 0 }

/-- The callback handlers registered in `HoroscopeBot.run` (lines 229-230). -/
inductive Handler where
  | show_zodiac_menu
  | gen_horoscope
deriving DecidableEq, Repr

/-- Python `re.match` of an anchored literal pattern `'^lit$'` against a
token, as `CallbackQueryHandler` applies it to the callback data: `^` is
redundant because `re.match` anchors at the start, and `$` (no
`re.MULTILINE` flag) matches at the end of the string or just before one
trailing newline, so the pattern accepts exactly `lit` and
`lit ++ "\n"`. -/
def matches_anchored (lit : String) (token : String) : Bool :=
  token == lit || token == lit ++ "\n"

/-- Callback dispatch as configured in `HoroscopeBot.run`:
`CallbackQueryHandler(show_zodiac_menu, pattern='^get_horoscope$')` is
registered first, then `CallbackQueryHandler(generate_horoscope,
pattern='^(Овен|Телец|...|Рыбы)$')`; python-telegram-bot gives the update
to the first handler whose pattern matches the callback data under
`re.match`.  None of the 12 sign tokens contains a regex metacharacter,
so the anchored alternation accepts a token iff some sign literal accepts
it in the sense of `matches_anchored` — which includes the
trailing-newline variant of each sign, not only the sign itself. -/
def dispatch_callback (token : String) : Option Handler :=
  if matches_anchored "get_horoscope" token then some Handler.show_zodiac_menu
  else if ZODIAC_SIGNS.any (fun s => matches_anchored s token) then
    some Handler.gen_horoscope
  else none

/-- Processing of one inbound callback update: route through
`dispatch_callback`; `show_zodiac_menu` (lines 148-162) only edits the
message to the sign menu, touching neither the database nor the
generator; an update no handler matches is dropped by the framework. -/
def process_callback (genResult : Except String String) (updOk saveOk : Bool)
    (db : DBState) (user_id : Int) (token : String) (now : Nat) :
    HandlerOutcome :=
  match dispatch_callback token with
  | some Handler.show_zodiac_menu =>
      { db := db, replies := [], edits := ["🔮 Выберите ваш знак зодиака:"],
        gen_calls := 0, logged := 0 }
  | some Handler.gen_horoscope =>
      generate_horoscope genResult updOk saveOk db user_id token now
  | none =>
      { db := db, replies := [], edits := [], gen_calls := 0, logged := 0 }

/-- Observable events of one subscriber's iteration of the daily job, in
program order: `sent uid` when `context.bot.send_message` to `uid`
returned without raising, `saved uid` when the history insert for `uid`
committed. -/
inductive BEvent where
  | sent (uid : Int)
  | saved (uid : Int)
deriving DecidableEq, Repr

/-- Outcome of a daily-broadcast run: the database when the job returns,
the `user_id`s iterated (in order), the delivery/storage event trace, and
the `user_id`s whose failure was logged by the `except` branch.  Totality
of the Lean function models the job returning normally: every exception
inside an iteration is caught at line 212. -/
structure JobOutcome where
  db : DBState
  attempted : List Int
  events : List BEvent
  logged : List Int
deriving DecidableEq, Repr

/-- One iteration of the `for user_id, zodiac_sign in users` loop of
`daily_horoscope_job` (lines 204-213), under oracles for the three
fallible calls: `gen sign` is what `_get_horoscope_prediction(sign)`
returns or raises, `send uid` is whether `bot.send_message(uid, ...)`
succeeds or raises, `saveOk uid` is whether the `save_horoscope` insert
commits or raises a storage error.  Any exception jumps to the `except`
branch: log and fall through to the next user. -/
def daily_step (gen : Option String → Except String String)
    (send : Int → Except String Unit) (saveOk : Int → Bool) (now : Nat)
    (db : DBState) (u : Int × Option String) :
    DBState × List BEvent × List Int :=
  match gen u.2 with
  | Except.error _ => (db, [], [u.1])
  | Except.ok prediction =>
      match send u.1 with
      | Except.error _ => (db, [], [u.1])
      | Except.ok _ =>
          match if saveOk u.1 then save_horoscope db u.1 u.2 prediction now
                else none with
          | none => (db, [BEvent.sent u.1], [u.1])
          | some db1 => (db1, [BEvent.sent u.1, BEvent.saved u.1], [])

/-- The subscriber loop of `daily_horoscope_job`, folded over the list
returned by `get_users_for_notification`. -/
def daily_go (gen : Option String → Except String String)
    (send : Int → Except String Unit) (saveOk : Int → Bool) (now : Nat) :
    List (Int × Option String) → DBState → JobOutcome
  | [], db => { db := db, attempted := [], events := [], logged := [] }
  | u :: rest, db =>
      let s := daily_step gen send saveOk now db u
      let r := daily_go gen send saveOk now rest s.1
      { db := r.db, attempted := u.1 :: r.attempted,
        events := s.2.1 ++ r.events, logged := s.2.2 ++ r.logged }

/-- `HoroscopeBot.daily_horoscope_job` (lines 200-213): fetch the users
for notification, then run the per-subscriber loop. -/
def daily_horoscope_job (gen : Option String → Except String String)
    (send : Int → Except String Unit) (saveOk : Int → Bool) (now : Nat)
    (db : DBState) : JobOutcome :=
  daily_go gen send saveOk now (get_users_for_notification db) db

/-- A sequence of `save_horoscope` calls, each with its own arguments and
timestamp; used to state monotonicity of the history.  On the (never
reachable with `fk_enforced = false`) failure of one call, the rolled-back
database is carried forward, as the exception leaves it. -/
def save_many (db : DBState)
    (calls : List (Int × Option String × String × Nat)) : DBState :=
  calls.foldl
    (fun d c => (save_horoscope d c.1 c.2.1 c.2.2.1 c.2.2.2).getD d) db

/-! Concrete database states and collaborator oracles used as inputs of
counterexamples, scenarios and witnesses. -/

/-- A store holding one user whose `zodiac_sign` is set but whose
`notification_time` is `NULL` — the state any user is in after choosing a
sign through the bot. -/
def dbLev : DBState :=
  { users := [{ user_id := 1, zodiac_sign := some "Лев",
                notification_time := none, created_at := 0, updated_at := 0 }],
    horoscopes := [], next_id := 1, fk_enforced := false }

/-- A store holding one user whose `zodiac_sign` is `NULL` but whose
`notification_time` is set. -/
def dbNullSign : DBState :=
  { users := [{ user_id := 2, zodiac_sign := none,
                notification_time := some 540, created_at := 0, updated_at := 0 }],
    horoscopes := [], next_id := 1, fk_enforced := false }

/-- A store holding one user with `notification_time` set and
`created_at = 0`, to observe what `update_user_zodiac` does to those
columns. -/
def dbOld : DBState :=
  { users := [{ user_id := 1, zodiac_sign := some "Овен",
                notification_time := some 540, created_at := 0, updated_at := 0 }],
    horoscopes := [], next_id := 1, fk_enforced := false }

/-- Broadcast-scenario store: subscribers `(1, "Рыбы")` and `(2, "Телец")`
(both with `notification_time` set, so `get_users_for_notification`
returns them). -/
def c4db : DBState :=
  { users :=
      [{ user_id := 1, zodiac_sign := some "Рыбы",
         notification_time := some 540, created_at := 0, updated_at := 0 },
       { user_id := 2, zodiac_sign := some "Телец",
         notification_time := some 540, created_at := 0, updated_at := 0 }],
    horoscopes := [], next_id := 1, fk_enforced := false }

/-- Generation oracle that raises for the sign "Рыбы" (user 1's sign in
`c4db`) and returns text for every other sign. -/
def c4gen : Option String → Except String String := fun s =>
  if s = some "Рыбы" then Except.error "GenerationError" else Except.ok "текст"

/-- Delivery oracle that always succeeds. -/
def sendOk : Int → Except String Unit := fun _ => Except.ok ()

/-- A concrete sequence of two `save_horoscope` calls. -/
def c8calls : List (Int × Option String × String × Nat) :=
  [(1, some "Лев", "текст", 5), (2, some "Дева", "текст", 6)]

/-- Generation oracle that always succeeds. -/
def genOk : Option String → Except String String := fun _ => Except.ok "текст"

/-! Helper lemmas shared by the claim theorems. -/

/-- Rows surviving a same-key filter after filtering the key away: none. -/
theorem filter_ne_then_eq (l : List UserRow) (uid : Int) :
    (l.filter (fun u => u.user_id != uid)).filter (fun u => u.user_id == uid) = [] := by
  induction l with
  | nil => rfl
  | cons u us ih =>
      by_cases h : u.user_id = uid
      · simp [List.filter_cons, h, ih]
      · simp [List.filter_cons, h, ih]

/-- After `update_user_zodiac db uid sign now`, the rows keyed `uid` are
exactly the one fresh row the `INSERT OR REPLACE` wrote. -/
theorem filter_update_self (db : DBState) (uid : Int) (sign : String) (now : Nat) :
    (update_user_zodiac db uid sign now).users.filter (fun u => u.user_id == uid) =
      [{ user_id := uid, zodiac_sign := some sign, notification_time := none,
         created_at := now, updated_at := now }] := by
  simp [update_user_zodiac, List.filter_append, filter_ne_then_eq]

/-- `update_user_zodiac` leaves every other user's row untouched. -/
theorem filter_update_other (db : DBState) (uid : Int) (sign : String) (now : Nat) :
    (update_user_zodiac db uid sign now).users.filter (fun u => u.user_id != uid) =
      db.users.filter (fun u => u.user_id != uid) := by
  simp only [update_user_zodiac, List.filter_append]
  have h2 : (db.users.filter (fun u => u.user_id != uid)).filter
      (fun u => u.user_id != uid) = db.users.filter (fun u => u.user_id != uid) := by
    induction db.users with
    | nil => rfl
    | cons u us ih =>
        by_cases h : u.user_id = uid
        · simp [List.filter_cons, h, ih]
        · simp [List.filter_cons, h, ih]
  simp [h2]

/-- Membership characterization of `get_users_for_notification`. -/
theorem mem_get_users_iff (db : DBState) (uid : Int) (sign : Option String) :
    (uid, sign) ∈ get_users_for_notification db ↔
      ∃ u, u ∈ db.users ∧ u.user_id = uid ∧ u.zodiac_sign = sign ∧
        u.notification_time ≠ none := by
  simp only [get_users_for_notification, List.mem_map, List.mem_filter,
    Option.isSome_iff_ne_none, Prod.mk.injEq]
  constructor
  · rintro ⟨u, ⟨hu, hnt⟩, h1, h2⟩
    exact ⟨u, hu, h1, h2, hnt⟩
  · rintro ⟨u, hu, h1, h2, hnt⟩
    exact ⟨u, ⟨hu, hnt⟩, h1, h2⟩

/-! Claim theorems. -/

/-- C1 (counterexample): the claim "`get_users_for_notification` returns
exactly the users that currently have a non-empty `zodiac_sign`, and
never returns a user whose `zodiac_sign` is unset" is false on the code.
In `dbLev` the single user has `zodiac_sign = some "Лев"` yet the query
returns nothing (its filter is `notification_time IS NOT NULL`), and in
`dbNullSign` the query returns a user whose `zodiac_sign` is `NULL`. -/
theorem get_users_zodiac_claim_cex :
    dbLev.users.map (fun u => u.zodiac_sign) = [some "Лев"]
    ∧ get_users_for_notification dbLev = []
    ∧ dbNullSign.users.map (fun u => u.zodiac_sign) = [none]
    ∧ get_users_for_notification dbNullSign = [(2, none)] :=
  ⟨rfl, rfl, rfl, rfl⟩

/-- C1 (amended): `get_users_for_notification` returns exactly the users
that currently have a non-NULL `notification_time`, paired with their
`zodiac_sign` (which may itself be NULL); membership is decided by
`notification_time` alone, not by `zodiac_sign`. -/
theorem get_users_for_notification_returns_notification_users
    (db : DBState) (uid : Int) (sign : Option String) :
    (uid, sign) ∈ get_users_for_notification db ↔
      ∃ u, u ∈ db.users ∧ u.user_id = uid ∧ u.zodiac_sign = sign ∧
        u.notification_time ≠ none :=
  mem_get_users_iff db uid sign

/-- C2: every row written by `update_user_zodiac` has
`notification_time = NULL` (the `INSERT OR REPLACE` rewrites the whole
row, and `notification_time` is not among the inserted columns), so right
after the call `get_users_for_notification` does not include that user. -/
theorem update_user_zodiac_clears_notification
    (db : DBState) (uid : Int) (sign : String) (now : Nat) :
    ((update_user_zodiac db uid sign now).users.filter
        (fun u => u.user_id == uid)).map (fun u => u.notification_time) = [none]
    ∧ (get_users_for_notification (update_user_zodiac db uid sign now)).filter
        (fun p => p.1 == uid) = [] := by
  constructor
  · rw [filter_update_self]; rfl
  · rw [List.filter_eq_nil_iff]
    rintro ⟨pid, psign⟩ hp
    obtain ⟨u, hu, h1, _, hnt⟩ := (mem_get_users_iff _ pid psign).mp hp
    simp only [update_user_zodiac, List.mem_append, List.mem_filter,
      List.mem_singleton] at hu
    rcases hu with ⟨_, hne⟩ | hnew
    · subst h1
      simpa using hne
    · exact absurd (by rw [hnew]) hnt

/-- C3 (counterexample): the claim that for an existing user
`update_user_zodiac` "replaces only `zodiac_sign` and `updated_at` in
place", leaving `created_at` and `notification_time` unchanged, is false:
in `dbOld` user 1 has `notification_time = some 540` and `created_at = 0`,
and after `update_user_zodiac dbOld 1 "Дева" 10` the surviving row has
`notification_time = NULL` and `created_at = 10`. -/
theorem update_user_zodiac_in_place_cex :
    dbOld.users.map (fun u => u.notification_time) = [some 540]
    ∧ dbOld.users.map (fun u => u.created_at) = [0]
    ∧ (update_user_zodiac dbOld 1 "Дева" 10).users.map
        (fun u => u.notification_time) = [none]
    ∧ (update_user_zodiac dbOld 1 "Дева" 10).users.map
        (fun u => u.created_at) = [10] := by
  refine ⟨rfl, rfl, ?_, ?_⟩ <;> decide

/-- C3 (amended): for a user with an existing row, `update_user_zodiac`
replaces the whole row under the same `user_id` key: afterwards exactly
one row exists for that user, with the new `zodiac_sign`, `updated_at`
and `created_at` set to the current timestamp and `notification_time`
reset to NULL; all other users' rows are unchanged. -/
theorem update_user_zodiac_replaces_whole_row
    (db : DBState) (uid : Int) (sign : String) (now : Nat) :
    (update_user_zodiac db uid sign now).users.filter
        (fun u => u.user_id == uid) =
      [{ user_id := uid, zodiac_sign := some sign, notification_time := none,
         created_at := now, updated_at := now }]
    ∧ (update_user_zodiac db uid sign now).users.filter
        (fun u => u.user_id != uid) =
      db.users.filter (fun u => u.user_id != uid) :=
  ⟨filter_update_self db uid sign now, filter_update_other db uid sign now⟩

/-- C5: two `update_user_zodiac` calls for the same user with different
signs leave exactly one row for that user, carrying the second sign; and
a single call never creates a duplicate row for a `user_id`. -/
theorem update_user_zodiac_upsert
    (db : DBState) (uid : Int) (s1 s2 : String) (t1 t2 : Nat) :
    ((update_user_zodiac (update_user_zodiac db uid s1 t1) uid s2 t2).users.filter
        (fun u => u.user_id == uid)).map (fun u => u.zodiac_sign) = [some s2]
    ∧ ((update_user_zodiac (update_user_zodiac db uid s1 t1) uid s2 t2).users.filter
        (fun u => u.user_id == uid)).length = 1
    ∧ ∀ (s : String) (t : Nat),
        (update_user_zodiac db uid s t).users.countP
          (fun u => u.user_id == uid) = 1 := by
  refine ⟨?_, ?_, ?_⟩
  · rw [filter_update_self]; rfl
  · rw [filter_update_self]; rfl
  · intro s t
    rw [List.countP_eq_length_filter, filter_update_self]
    rfl

/-- C6: for every failure mode of the on-demand flow, `generate_horoscope`
replies with the generic apology, logs exactly one error, and returns
normally (it is a total function; the Python `except` swallows the
exception), and no store write after the failing step is visible:
if generation fails the database is untouched; if the preference write
fails the database is untouched; if the history write fails the
preference write stands but the history is untouched. -/
theorem generate_horoscope_failure_contained
    (db : DBState) (uid : Int) (sign : String) (now : Nat) :
    (∀ (e : String) (updOk saveOk : Bool),
        generate_horoscope (Except.error e) updOk saveOk db uid sign now =
          { db := db, replies := [apology],
            edits := ["🔍 Составляю гороскоп для " ++ sign ++ "..."],
            gen_calls := 1, logged := 1 })
    ∧ (∀ (p : String) (saveOk : Bool),
        generate_horoscope (Except.ok p) false saveOk db uid sign now =
          { db := db, replies := [apology],
            edits := ["🔍 Составляю гороскоп для " ++ sign ++ "..."],
            gen_calls := 1, logged := 1 })
    ∧ (∀ (p : String),
        generate_horoscope (Except.ok p) true false db uid sign now =
          { db := update_user_zodiac db uid sign now, replies := [apology],
            edits := ["🔍 Составляю гороскоп для " ++ sign ++ "..."],
            gen_calls := 1, logged := 1 }
        ∧ (update_user_zodiac db uid sign now).horoscopes = db.horoscopes) :=
  ⟨fun _ _ _ => rfl, fun _ _ => rfl, fun _ => ⟨rfl, rfl⟩⟩

/-- C9 (counterexample): the claim that the dispatch patterns route only
exact matches of the 12 sign tokens to `generate_horoscope`, so that any
token outside the 12 strings causes no state change, no generation call
and no store write, is false of the source: Python's `$` (without
`re.MULTILINE`) also matches just before one trailing newline, so the
token "Овен\n" — not one of the 12 sign strings — is routed to
`generate_horoscope`, makes a generation call and mutates the store. -/
theorem dispatch_trailing_newline_cex :
    ZODIAC_SIGNS.contains "Овен\n" = false
    ∧ dispatch_callback "Овен\n" = some Handler.gen_horoscope
    ∧ (process_callback (Except.ok "текст") true true initDB 1 "Овен\n" 0).gen_calls = 1
    ∧ (process_callback (Except.ok "текст") true true initDB 1 "Овен\n" 0).db ≠
        initDB := by
  refine ⟨?_, ?_, ?_, ?_⟩ <;> decide

/-- C9 (amended): the dispatch patterns route to `generate_horoscope`
only the tokens accepted by one of the 12 anchored sign patterns — a sign
string exactly, or a sign string followed by one trailing newline (Python
`$` also matches there); a callback token that neither any sign pattern
nor the menu pattern accepts reaches no handler: the database is
unchanged (no preference or history write), no generation call is made,
and no reply, edit or log entry is produced. -/
theorem non_matching_callback_ignored
    (token : String)
    (h1 : ZODIAC_SIGNS.any (fun s => matches_anchored s token) = false)
    (h2 : matches_anchored "get_horoscope" token = false)
    (genResult : Except String String) (updOk saveOk : Bool)
    (db : DBState) (uid : Int) (now : Nat) :
    dispatch_callback token = none
    ∧ process_callback genResult updOk saveOk db uid token now =
        { db := db, replies := [], edits := [], gen_calls := 0, logged := 0 } := by
  have hc2 : ¬ (matches_anchored "get_horoscope" token = true) := by
    intro hx
    rw [h2] at hx
    exact Bool.false_ne_true hx
  have hc1 : ¬ (ZODIAC_SIGNS.any (fun s => matches_anchored s token) = true) := by
    intro hx
    rw [h1] at hx
    exact Bool.false_ne_true hx
  have hd : dispatch_callback token = none := by
    unfold dispatch_callback
    rw [if_neg hc2, if_neg hc1]
  exact ⟨hd, by simp [process_callback, hd]⟩

/-- Witness for the amended C9 at the concrete token "abc". -/
theorem non_matching_callback_ignored_witness :
    ZODIAC_SIGNS.any (fun s => matches_anchored s "abc") = false
    ∧ matches_anchored "get_horoscope" "abc" = false
    ∧ (dispatch_callback "abc" = none
       ∧ process_callback (Except.ok "текст") true true initDB 1 "abc" 0 =
           { db := initDB, replies := [], edits := [], gen_calls := 0, logged := 0 }) :=
  ⟨rfl, rfl,
   non_matching_callback_ignored "abc" rfl rfl
     (Except.ok "текст") true true initDB 1 0⟩

/-- The per-subscriber loop visits every element of the subscriber list,
whatever the oracles do. -/
theorem daily_go_attempted (gen : Option String → Except String String)
    (send : Int → Except String Unit) (saveOk : Int → Bool) (now : Nat)
    (l : List (Int × Option String)) (db : DBState) :
    (daily_go gen send saveOk now l db).attempted = l.map Prod.fst := by
  induction l generalizing db with
  | nil => rfl
  | cons u rest ih => simp [daily_go, ih]

/-- C4: the daily broadcast attempts every subscriber regardless of which
iterations fail (totality of `daily_go` models that every per-user
exception is caught inside the loop and none escapes the job); and in the
concrete run over subscribers `[(1, "Рыбы"), (2, "Телец")]` where
generation raises for user 1 and succeeds for user 2, both users are
attempted, user 1's failure is logged, and exactly one history row — for
user 2 — is appended. -/
theorem daily_horoscope_job_attempts_all
    (gen : Option String → Except String String)
    (send : Int → Except String Unit) (saveOk : Int → Bool) (now : Nat)
    (db : DBState) :
    (daily_horoscope_job gen send saveOk now db).attempted =
      (get_users_for_notification db).map Prod.fst
    ∧ (get_users_for_notification c4db = [(1, some "Рыбы"), (2, some "Телец")]
       ∧ (daily_horoscope_job c4gen sendOk (fun _ => true) 7 c4db).attempted = [1, 2]
       ∧ (daily_horoscope_job c4gen sendOk (fun _ => true) 7 c4db).logged = [1]
       ∧ (daily_horoscope_job c4gen sendOk (fun _ => true) 7 c4db).db.horoscopes =
           c4db.horoscopes ++
             [{ id := 1, user_id := 2, zodiac_sign := some "Телец",
                prediction := some "текст", created_at := 7 }]) :=
  ⟨daily_go_attempted gen send saveOk now (get_users_for_notification db) db,
   by decide, by decide, by decide, by decide⟩

/-- C7: within one subscriber's iteration of the daily job the only
possible delivery/storage traces are: nothing (generation or delivery
failed), message sent only (history write failed after the send), or
message sent and then history saved — so a history row is recorded only
after a successful delivery, never for an undelivered message, while a
delivered message may stay unrecorded; the concrete conjunct exhibits the
latter: generation and delivery succeed, the history write fails, the
trace is exactly `[sent 1]` and the database is unchanged. -/
theorem daily_step_send_before_save
    (gen : Option String → Except String String)
    (send : Int → Except String Unit) (saveOk : Int → Bool) (now : Nat)
    (db : DBState) (u : Int × Option String) :
    ((daily_step gen send saveOk now db u).2.1 = []
     ∨ (daily_step gen send saveOk now db u).2.1 = [BEvent.sent u.1]
     ∨ (daily_step gen send saveOk now db u).2.1 =
         [BEvent.sent u.1, BEvent.saved u.1])
    ∧ (BEvent.saved u.1 ∈ (daily_step gen send saveOk now db u).2.1 →
        (daily_step gen send saveOk now db u).2.1 =
          [BEvent.sent u.1, BEvent.saved u.1])
    ∧ ((daily_step genOk sendOk (fun _ => false) 7 c4db (1, some "Рыбы")).2.1 =
         [BEvent.sent 1]
       ∧ (daily_step genOk sendOk (fun _ => false) 7 c4db (1, some "Рыбы")).1 =
           c4db) := by
  have key : (daily_step gen send saveOk now db u).2.1 = []
      ∨ (daily_step gen send saveOk now db u).2.1 = [BEvent.sent u.1]
      ∨ (daily_step gen send saveOk now db u).2.1 =
          [BEvent.sent u.1, BEvent.saved u.1] := by
    unfold daily_step
    cases hg : gen u.2 with
    | error e => simp
    | ok p =>
        cases hs : send u.1 with
        | error e => simp
        | ok v =>
            cases hv : (if saveOk u.1 then save_horoscope db u.1 u.2 p now
                        else none) with
            | none => simp [hv]
            | some db1 => simp [hv]
  refine ⟨key, ?_, by decide, by decide⟩
  intro hmem
  rcases key with hk | hk | hk
  · rw [hk] at hmem
    simp at hmem
  · rw [hk] at hmem
    simp at hmem
  · exact hk

/-- Witness for C7: with every collaborator succeeding, user 1's history
row is recorded, and indeed only after the message was sent. -/
theorem daily_step_send_before_save_witness :
    BEvent.saved 1 ∈
      (daily_step genOk sendOk (fun _ => true) 7 c4db (1, some "Рыбы")).2.1
    ∧ (daily_step genOk sendOk (fun _ => true) 7 c4db (1, some "Рыбы")).2.1 =
        [BEvent.sent 1, BEvent.saved 1] :=
  ⟨by decide,
   (daily_step_send_before_save genOk sendOk (fun _ => true) 7 c4db
      (1, some "Рыбы")).2.1 (by decide)⟩

/-- With foreign-key enforcement off — the state of every connection this
program opens — the history insert always succeeds and appends exactly
one row, whatever the `users` table holds. -/
theorem save_horoscope_fk_off (db : DBState) (h : db.fk_enforced = false)
    (uid : Int) (s : Option String) (p : String) (now : Nat) :
    save_horoscope db uid s p now =
      some { db with
        horoscopes := db.horoscopes ++
          [{ id := db.next_id, user_id := uid, zodiac_sign := s,
             prediction := some p, created_at := now }],
        next_id := db.next_id + 1 } := by
  unfold save_horoscope
  rw [h]
  rfl

/-- A sequence of history inserts appends one row per call, leaves the
`users` table untouched, and keeps foreign keys unenforced. -/
theorem save_many_horoscopes (db : DBState)
    (calls : List (Int × Option String × String × Nat))
    (h : db.fk_enforced = false) :
    ∃ newRows : List HoroscopeRow,
      (save_many db calls).horoscopes = db.horoscopes ++ newRows
      ∧ newRows.length = calls.length
      ∧ (save_many db calls).users = db.users
      ∧ (save_many db calls).fk_enforced = false := by
  induction calls generalizing db with
  | nil => exact ⟨[], by simp [save_many], rfl, rfl, h⟩
  | cons c cs ih =>
      have hstep := save_horoscope_fk_off db h c.1 c.2.1 c.2.2.1 c.2.2.2
      have hm : save_many db (c :: cs) =
          save_many { db with
            horoscopes := db.horoscopes ++
              [{ id := db.next_id, user_id := c.1, zodiac_sign := c.2.1,
                 prediction := some c.2.2.1, created_at := c.2.2.2 }],
            next_id := db.next_id + 1 } cs := by
        simp only [save_many, List.foldl_cons, hstep, Option.getD_some]
      obtain ⟨rows, hr, hl, hu, hf⟩ :=
        ih { db with
          horoscopes := db.horoscopes ++
            [{ id := db.next_id, user_id := c.1, zodiac_sign := c.2.1,
               prediction := some c.2.2.1, created_at := c.2.2.2 }],
          next_id := db.next_id + 1 } h
      refine ⟨{ id := db.next_id, user_id := c.1, zodiac_sign := c.2.1,
                prediction := some c.2.2.1, created_at := c.2.2.2 } :: rows,
              ?_, ?_, ?_, ?_⟩
      · rw [hm, hr]
        simp
      · simp [hl]
      · rw [hm, hu]
      · rw [hm]
        exact hf

/-- C8: the prediction history is append-only.  `save_horoscope` only ever
appends (after N successful calls the history grew by exactly N rows and
the old rows are still a prefix), the `users` table and hence the result
of `get_users_for_notification` are unchanged by those calls, and
`update_user_zodiac` — the only other mutation in the program — never
touches the `horoscopes` table; no operation deletes or rewrites a
history row. -/
theorem save_horoscope_append_only (db : DBState)
    (calls : List (Int × Option String × String × Nat))
    (h : db.fk_enforced = false) :
    (save_many db calls).horoscopes.length =
        db.horoscopes.length + calls.length
    ∧ (save_many db calls).users = db.users
    ∧ get_users_for_notification (save_many db calls) =
        get_users_for_notification db
    ∧ (∃ newRows, (save_many db calls).horoscopes = db.horoscopes ++ newRows)
    ∧ (∀ (uid : Int) (s : String) (t : Nat),
        (update_user_zodiac db uid s t).horoscopes = db.horoscopes) := by
  obtain ⟨rows, hr, hl, hu, _⟩ := save_many_horoscopes db calls h
  refine ⟨?_, hu, ?_, ⟨rows, hr⟩, fun _ _ _ => rfl⟩
  · rw [hr, List.length_append, hl]
  · unfold get_users_for_notification
    rw [hu]

/-- Witness for C8: two concrete inserts on the freshly initialized
database. -/
theorem save_horoscope_append_only_witness :
    initDB.fk_enforced = false
    ∧ ((save_many initDB c8calls).horoscopes.length =
          initDB.horoscopes.length + c8calls.length
       ∧ (save_many initDB c8calls).users = initDB.users
       ∧ get_users_for_notification (save_many initDB c8calls) =
           get_users_for_notification initDB
       ∧ (∃ newRows, (save_many initDB c8calls).horoscopes =
             initDB.horoscopes ++ newRows)
       ∧ (∀ (uid : Int) (s : String) (t : Nat),
           (update_user_zodiac initDB uid s t).horoscopes =
             initDB.horoscopes)) :=
  ⟨rfl, save_horoscope_append_only initDB c8calls rfl⟩

/-- C10: on the connections this program opens (foreign keys unenforced,
as at `initDB`), `save_horoscope` succeeds for every `user_id`, including
one with no `users` row, and appends exactly the new history row; the
declared `FOREIGN KEY(user_id) REFERENCES users(user_id)` is never
checked because the program never issues `PRAGMA foreign_keys = ON`. -/
theorem save_horoscope_never_fails
    (db : DBState) (uid : Int) (s : Option String) (p : String) (now : Nat)
    (h : db.fk_enforced = false) :
    initDB.fk_enforced = false
    ∧ save_horoscope db uid s p now =
        some { db with
          horoscopes := db.horoscopes ++
            [{ id := db.next_id, user_id := uid, zodiac_sign := s,
               prediction := some p, created_at := now }],
          next_id := db.next_id + 1 } :=
  ⟨rfl, save_horoscope_fk_off db h uid s p now⟩

/-- Witness for C10: an insert for user 7, who has no row in the (empty)
`users` table of the freshly initialized database. -/
theorem save_horoscope_never_fails_witness :
    initDB.fk_enforced = false
    ∧ (initDB.fk_enforced = false
       ∧ save_horoscope initDB 7 (some "Лев") "текст" 3 =
           some { initDB with
             horoscopes := initDB.horoscopes ++
               [{ id := initDB.next_id, user_id := 7, zodiac_sign := some "Лев",
                  prediction := some "текст", created_at := 3 }],
             next_id := initDB.next_id + 1 }) :=
  ⟨rfl, save_horoscope_never_fails initDB 7 (some "Лев") "текст" 3 rfl⟩

end Gadalka
